import Mathlib

/-!
Verification of the audio-vibe-server core: the content-addressed response
cache behind `POST /cache-request` and the range-serving engine behind
`GET /songs/:id` (src/src/lib/exec.ts). Handlers are embedded shallowly:
Deno KV becomes an association list, the upstream `axiod` dispatch becomes
an `Except` parameter, and file I/O becomes pure list slicing.
-/

namespace AudioVibe

/-- A JavaScript value as stored in the KV cache and returned upstream.
Objects/arrays are not needed by any claim; scalars carry JS truthiness. -/
inductive JVal where
  | jnull
  | jbool (b : Bool)
  | jnum (n : Int)
  | jstr (s : String)
deriving Repr, DecidableEq

/-- JS truthiness, as tested by `if (cachedResponse.value)` (exec.ts:178). -/
def JVal.truthy : JVal → Bool
  | JVal.jnull => false
  | JVal.jbool b => b
  | JVal.jnum n => n != 0
  | JVal.jstr s => s != ""

/-- Lexicographic order on char lists: the code-unit string order used by
JS `Array.sort` on keys. -/
def charListLe : List Char → List Char → Bool
  | [], _ => true
  | _ :: _, [] => false
  | a :: as, b :: bs => if a < b then true else if b < a then false else charListLe as bs

/-- Key comparison for canonicalization. -/
def keyLe (a b : String) : Bool := charListLe a.data b.data

/-- Insert a key-value pair into a key-sorted association list, keeping it
sorted by key. -/
def insertByKey (p : String × String) : List (String × String) → List (String × String)
  | [] => [p]
  | q :: rest => if keyLe p.1 q.1 then p :: q :: rest else q :: insertByKey p rest

/-- Sort an association list by key (insertion sort). -/
def sortKeys : List (String × String) → List (String × String)
  | [] => []
  | p :: rest => insertByKey p (sortKeys rest)

/-- Flatten an association list into one canonical string. -/
def serializePairs (l : List (String × String)) : String :=
  l.foldl (fun acc p => acc ++ p.1 ++ ":" ++ p.2 ++ ";") ""

/-- Modelled from the spec: the fingerprint function (the `object_hash`
library at exec.ts:175, a dependency whose code is not under src/) "must
canonicalize mapping key order before hashing". Modelled as the canonical
serialization of the key-sorted field list; the fixed-width digest applied
on top is a pure function of this string, so fingerprint equality is
exactly equality of the canonical forms. The request body is modelled as
an association list in JSON key insertion order. -/
def fingerprint (data : List (String × String)) : String :=
  serializePairs (sortKeys data)

/-- `kv.get([requestHash])` (exec.ts:176): first-match association lookup. -/
def lookupStore : List (String × JVal) → String → Option JVal
  | [], _ => Option.none
  | (k', v) :: rest, k => if k' = k then Option.some v else lookupStore rest k

/-- `kv.set([requestHash], value)` (exec.ts:192): overwrite or append. -/
def setStore : List (String × JVal) → String → JVal → List (String × JVal)
  | [], k, v => [(k, v)]
  | (k', v') :: rest, k, v =>
    if k' = k then (k, v) :: rest else (k', v') :: setStore rest k v

/-- Field access on the parsed JSON body. -/
def getField : List (String × String) → String → Option String
  | [], _ => Option.none
  | (k', v) :: rest, k => if k' = k then Option.some v else getField rest k

/-- `z.string().url()` acceptance (exec.ts:167). Modelled from the spec:
zod's url check is library code not under src/; the spec requires an
absolute URI, modelled as an http(s) URL. -/
def isAbsoluteUrl (u : String) : Bool :=
  List.isPrefixOf "http://".data u.data || List.isPrefixOf "https://".data u.data

/-- The `cacheRequestSchema` shape check (exec.ts:165-168):
method in {GET, POST} and url an absolute URI. -/
def cacheRequestSchemaCheck (data : List (String × String)) : Bool :=
  (match getField data "method" with
   | Option.some m => m == "GET" || m == "POST"
   | Option.none => false) &&
  (match getField data "url" with
   | Option.some u => isAbsoluteUrl u
   | Option.none => false)

/-- Outcome of one `/cache-request` invocation. `validationIssues` is the
outcome the error-handling layer (exec.ts:307-313) would produce if a
ZodError were thrown; the handler as written never produces it. -/
inductive CacheOutcome where
  | payload (v : JVal)
  | validationIssues (issues : List String)
  | upstreamError
deriving Repr, DecidableEq

/-- Result of one `/cache-request` invocation: final store state, the
response outcome, and whether the upstream dispatch was invoked. -/
structure CacheResult where
  store : List (String × JVal)
  outcome : CacheOutcome
  dispatched : Bool
deriving Repr, DecidableEq

/-- The `POST /cache-request` handler (exec.ts:169-194). The
`safeParseAsync` result on line 174 is discarded by the source, so the
schema check does not gate anything here; the handler hashes the raw body,
tests the cached value for JS truthiness, and on miss dispatches upstream
(`axiod.request`, modelled by the `dispatch` argument: `Except.error` is a
thrown upstream failure, which aborts the handler before `kv.set`). -/
def cacheRequest (store : List (String × JVal)) (data : List (String × String))
    (dispatch : Except Unit JVal) : CacheResult :=
  let requestHash := fingerprint data
  let cached := (lookupStore store requestHash).getD JVal.jnull
  if cached.truthy then
    { store := store, outcome := CacheOutcome.payload cached, dispatched := false }
  else
    match dispatch with
    | Except.ok p =>
      { store := setStore store requestHash p
        outcome := CacheOutcome.payload p
        dispatched := true }
    | Except.error _ =>
      { store := store, outcome := CacheOutcome.upstreamError, dispatched := true }

theorem lookupStore_setStore_self (st : List (String × JVal)) (k : String) (v : JVal) :
    lookupStore (setStore st k v) k = Option.some v := by
  induction st with
  | nil => simp [setStore, lookupStore]
  | cons p rest ih =>
    obtain ⟨k', v'⟩ := p
    by_cases hk : k' = k
    · simp [setStore, hk, lookupStore]
    · simp [setStore, hk, lookupStore, ih]

/-- C1: two request descriptors with the same method and url fields, built
with the two possible key insertion orders, receive the same fingerprint:
the fingerprint canonicalizes key order before hashing. -/
theorem C1_fingerprint_order_independent (m u : String) :
    fingerprint [("method", m), ("url", u)] = fingerprint [("url", u), ("method", m)] := by
  have hmu : keyLe "method" "url" = true := by decide
  have hum : keyLe "url" "method" = false := by decide
  simp [fingerprint, sortKeys, insertByKey, hmu, hum]

/-- C2: the claim says a body failing the schema check triggers a
ValidationError without touching the store. The handler discards the
`safeParseAsync` result (exec.ts:174), so a body with method "DELETE" and
a non-URL url fails the schema check, yet the handler still looks the hash
up, dispatches upstream, writes the store, and returns the upstream
payload rather than validation issues. -/
theorem C2_validation_discarded :
    cacheRequestSchemaCheck [("method", "DELETE"), ("url", "spotify")] = false ∧
    (cacheRequest [] [("method", "DELETE"), ("url", "spotify")]
      (Except.ok (JVal.jstr "upstream"))).dispatched = true ∧
    (cacheRequest [] [("method", "DELETE"), ("url", "spotify")]
      (Except.ok (JVal.jstr "upstream"))).store ≠ [] ∧
    (cacheRequest [] [("method", "DELETE"), ("url", "spotify")]
      (Except.ok (JVal.jstr "upstream"))).outcome
      = CacheOutcome.payload (JVal.jstr "upstream") := by
  refine ⟨by decide, by decide, by decide, by decide⟩

/-- C5 counterexample: against a dispatch collaborator whose first payload
is the empty string and whose second payload is "second", the second
resolve returns "second", not the first dispatched payload — the claim as
stated (for every collaborator returning different payloads) is false,
because the hit test is truthiness and the stored "" reads as a miss. -/
theorem C5_counterexample :
    (cacheRequest
      (cacheRequest [] [("method", "GET"), ("url", "http://a")]
        (Except.ok (JVal.jstr ""))).store
      [("method", "GET"), ("url", "http://a")]
      (Except.ok (JVal.jstr "second"))).outcome
      = CacheOutcome.payload (JVal.jstr "second") ∧
    CacheOutcome.payload (JVal.jstr "second") ≠ CacheOutcome.payload (JVal.jstr "") ∧
    (cacheRequest
      (cacheRequest [] [("method", "GET"), ("url", "http://a")]
        (Except.ok (JVal.jstr ""))).store
      [("method", "GET"), ("url", "http://a")]
      (Except.ok (JVal.jstr "second"))).dispatched = true := by
  refine ⟨by decide, by decide, by decide⟩

/-- C5 amended: when the first dispatched payload is truthy, a second
resolve with the same descriptor returns that first payload verbatim from
the store, performs no upstream dispatch, and leaves the store unchanged. -/
theorem C5_cache_idempotent_truthy (data : List (String × String)) (p₁ p₂ : JVal)
    (h : p₁.truthy = true) :
    (cacheRequest (cacheRequest [] data (Except.ok p₁)).store data
      (Except.ok p₂)).outcome = CacheOutcome.payload p₁ ∧
    (cacheRequest (cacheRequest [] data (Except.ok p₁)).store data
      (Except.ok p₂)).dispatched = false ∧
    (cacheRequest (cacheRequest [] data (Except.ok p₁)).store data
      (Except.ok p₂)).store = (cacheRequest [] data (Except.ok p₁)).store := by
  have h1 : cacheRequest [] data (Except.ok p₁)
      = { store := [(fingerprint data, p₁)]
          outcome := CacheOutcome.payload p₁
          dispatched := true } := by
    simp [cacheRequest, lookupStore, setStore, JVal.truthy]
  rw [h1]
  simp [cacheRequest, lookupStore, h]

theorem C5_cache_idempotent_truthy_witness :
    (JVal.jstr "a").truthy = true ∧
    (cacheRequest
      (cacheRequest [] [("method", "GET"), ("url", "http://b")]
        (Except.ok (JVal.jstr "a"))).store
      [("method", "GET"), ("url", "http://b")]
      (Except.ok (JVal.jstr "b"))).outcome = CacheOutcome.payload (JVal.jstr "a") := by
  refine ⟨by decide, ?_⟩
  exact (C5_cache_idempotent_truthy [("method", "GET"), ("url", "http://b")]
    (JVal.jstr "a") (JVal.jstr "b") (by decide)).1

/-- C6: when the upstream dispatch fails on a miss (the handler actually
dispatched), the failure propagates as an upstream error, the store is
unchanged (the `kv.set` on exec.ts:192 is never reached), and a subsequent
resolve with the same descriptor dispatches again, whatever its dispatch
collaborator returns. -/
theorem C6_failure_not_cached (store : List (String × JVal))
    (data : List (String × String)) (d₂ : Except Unit JVal)
    (h : (cacheRequest store data (Except.error ())).dispatched = true) :
    (cacheRequest store data (Except.error ())).store = store ∧
    (cacheRequest store data (Except.error ())).outcome = CacheOutcome.upstreamError ∧
    (cacheRequest store data d₂).dispatched = true := by
  by_cases hc : ((lookupStore store (fingerprint data)).getD JVal.jnull).truthy = true
  · exfalso
    simp [cacheRequest, hc] at h
  · refine ⟨?_, ?_, ?_⟩
    · simp [cacheRequest, hc]
    · simp [cacheRequest, hc]
    · cases d₂ <;> simp [cacheRequest, hc]

theorem C6_failure_not_cached_witness :
    (cacheRequest [] [("method", "GET"), ("url", "http://c")]
      (Except.error ())).dispatched = true ∧
    (cacheRequest [] [("method", "GET"), ("url", "http://c")]
      (Except.error ())).store = [] := by
  refine ⟨by decide, ?_⟩
  exact (C6_failure_not_cached [] [("method", "GET"), ("url", "http://c")]
    (Except.ok JVal.jnull) (by decide)).1

/-- C9: the cache hit test is truthiness of the stored value, not key
presence: if the store maps the descriptor's fingerprint to a falsy value,
resolve dispatches upstream again and overwrites the stored entry with the
newly dispatched payload. -/
theorem C9_falsy_hit_is_miss (store : List (String × JVal))
    (data : List (String × String)) (v p : JVal)
    (hv : lookupStore store (fingerprint data) = Option.some v)
    (ht : v.truthy = false) :
    (cacheRequest store data (Except.ok p)).dispatched = true ∧
    lookupStore (cacheRequest store data (Except.ok p)).store (fingerprint data)
      = Option.some p ∧
    (cacheRequest store data (Except.ok p)).outcome = CacheOutcome.payload p := by
  refine ⟨?_, ?_, ?_⟩ <;>
    simp [cacheRequest, hv, ht, lookupStore_setStore_self]

theorem C9_falsy_hit_is_miss_witness :
    lookupStore
      (setStore [] (fingerprint [("method", "GET"), ("url", "http://d")]) (JVal.jstr ""))
      (fingerprint [("method", "GET"), ("url", "http://d")])
      = Option.some (JVal.jstr "") ∧
    (JVal.jstr "").truthy = false ∧
    (cacheRequest
      (setStore [] (fingerprint [("method", "GET"), ("url", "http://d")]) (JVal.jstr ""))
      [("method", "GET"), ("url", "http://d")]
      (Except.ok (JVal.jstr "fresh"))).dispatched = true := by
  refine ⟨by decide, by decide, ?_⟩
  exact (C9_falsy_hit_is_miss
    (setStore [] (fingerprint [("method", "GET"), ("url", "http://d")]) (JVal.jstr ""))
    [("method", "GET"), ("url", "http://d")] (JVal.jstr "") (JVal.jstr "fresh")
    (by decide) (by decide)).1

/-! ## Range-serving engine (`GET /songs/:id`, exec.ts:196-250) -/

/-- The 1 MiB chunk cap, `const maxChunk = 1024 * 1024` (exec.ts:212). -/
def maxChunk : Int := 1024 * 1024

/-- JS numbers appearing in the range arithmetic: `Option.none` is NaN. -/
def jadd : Option Int → Option Int → Option Int
  | Option.some a, Option.some b => Option.some (a + b)
  | _, _ => Option.none

/-- Subtraction with NaN propagation. -/
def jsub : Option Int → Option Int → Option Int
  | Option.some a, Option.some b => Option.some (a - b)
  | _, _ => Option.none

/-- JS `>`: any comparison against NaN is false. -/
def jgt : Option Int → Option Int → Bool
  | Option.some a, Option.some b => decide (a > b)
  | _, _ => false

/-- JS number-to-string as used by template literals and `toString()`. -/
def jsNumToString : Option Int → String
  | Option.none => "NaN"
  | Option.some n => toString n

/-- Numeric value of a decimal digit character. -/
def digitVal (c : Char) : Nat := c.toNat - Char.toNat '0'

/-- JS `parseInt(s, 10)`: skip leading spaces, optional sign, then the
longest digit run; NaN (`Option.none`) when no digit is found, trailing
garbage ignored. -/
def jsParseInt (s : String) : Option Int :=
  let cs := s.data.dropWhile (fun c => c = ' ')
  let sgn : Int := match cs with
    | '-' :: _ => -1
    | _ => 1
  let rest := match cs with
    | '-' :: t => t
    | '+' :: t => t
    | _ => cs
  let ds := rest.takeWhile Char.isDigit
  if ds.isEmpty then Option.none
  else Option.some (sgn * (ds.foldl (fun n c => n * 10 + digitVal c) 0 : Nat))

/-- Remove the first occurrence of `pat` from a char list:
`range.replace(/bytes=/, "")` (exec.ts:209). -/
def removeFirstSub (pat : List Char) : List Char → List Char
  | [] => []
  | c :: rest =>
    if List.isPrefixOf pat (c :: rest) then List.drop pat.length (c :: rest)
    else c :: removeFirstSub pat rest

/-- Chars before the first dash: `split("-")[0]`. -/
def takeUntilDash (cs : List Char) : List Char := cs.takeWhile (fun c => c ≠ '-')

/-- Chars after the first dash, `Option.none` when there is no dash
(`split("-")[1]` is `undefined`, which is falsy like `""`). -/
def dropThroughDash (cs : List Char) : Option (List Char) :=
  match cs.dropWhile (fun c => c ≠ '-') with
  | [] => Option.none
  | _ :: rest => Option.some rest

/-- `end` when the second split component is falsy: default to
`songSize - 1` (exec.ts:211). -/
def defaultEnd (second : String) (songSize : Int) : Option Int :=
  if second ≠ "" then jsParseInt second else Option.some (songSize - 1)

/-- The clamp `if (end - start + 1 > maxChunk) end = start + maxChunk - 1`
(exec.ts:214-216), with NaN-propagating JS arithmetic. -/
def clampEnd (start e0 : Option Int) : Option Int :=
  if jgt (jadd (jsub e0 start) (Option.some 1)) (Option.some maxChunk)
  then jadd start (Option.some (maxChunk - 1))
  else e0

/-- The range-header arithmetic of exec.ts:209-216: strip `bytes=`, split
on the dash, `parseInt` the start, default or `parseInt` the end, clamp.
Returns the (start, end) pair, each possibly NaN. -/
def parseRangeModel (header : String) (songSize : Int) : Option Int × Option Int :=
  let stripped := removeFirstSub "bytes=".data header.data
  let first := String.mk (takeUntilDash stripped)
  let second := String.mk (match dropThroughDash stripped with
    | Option.none => []
    | Option.some rest => takeUntilDash rest)
  let start := jsParseInt first
  (start, clampEnd start (defaultEnd second songSize))

/-- The `Deno.SeekMode` chosen at exec.ts:225-232. -/
inductive SeekWhence where
  | fromStart
  | fromEnd
  | fromCurrent
deriving Repr, DecidableEq

/-- The seek-mode selection of exec.ts:226-232: Start when `start === 0`,
End when `end === songSize - 1`, Current otherwise. -/
def seekChoice (s e songSize : Int) : SeekWhence :=
  if s = 0 then SeekWhence.fromStart
  else if e = songSize - 1 then SeekWhence.fromEnd
  else SeekWhence.fromCurrent

/-- Absolute file position after `Deno.seek(rid, offset, whence)` on a
freshly opened file (current position 0): Start and Current both land on
`offset`; End lands on `songSize + offset`. -/
def seekPos (songSize : Int) (w : SeekWhence) (offset : Int) : Int :=
  match w with
  | SeekWhence.fromStart => offset
  | SeekWhence.fromEnd => songSize + offset
  | SeekWhence.fromCurrent => offset

/-- The seek offset actually passed to `Deno.seek`: the runtime coerces
the JS number to i64, and NaN coerces to 0. -/
def seekOffset : Option Int → Int
  | Option.some s => s
  | Option.none => 0

/-- ECMAScript ToIndex as applied by `new Uint8Array(len)` (exec.ts:238):
NaN becomes 0 (an empty buffer), a negative length throws a RangeError
(`Option.none` here), any other integer is itself. -/
def toIndex : Option Int → Option Nat
  | Option.none => Option.some 0
  | Option.some n => if n < 0 then Option.none else Option.some n.toNat

/-- The seek-mode selection of exec.ts:226-232 on the possibly-NaN start
and end: JS `===` against a number is false for NaN, so a NaN start never
selects Start and a NaN end never selects End. -/
def seekChoiceJS (start endv : Option Int) (songSize : Int) : SeekWhence :=
  match start, endv with
  | Option.some s, Option.some e => seekChoice s e songSize
  | Option.none, Option.some e =>
    if e = songSize - 1 then SeekWhence.fromEnd else SeekWhence.fromCurrent
  | Option.some s, Option.none =>
    if s = 0 then SeekWhence.fromStart else SeekWhence.fromCurrent
  | Option.none, Option.none => SeekWhence.fromCurrent

/-- Bytes delivered by the single `file.read(content)` (exec.ts:239) from
absolute position `pos`: at most `len` bytes, fewer at end of file, none
when positioned at or past it. -/
def readAt (content : List Nat) (pos : Int) (len : Nat) : List Nat :=
  if pos < 0 then [] else List.take len (List.drop pos.toNat content)

/-- The buffer returned as the 206 body: `new Uint8Array(len)` filled by
one read, the unfilled remainder staying zero (exec.ts:238-244). -/
def rangedBody (content : List Nat) (pos : Int) (len : Nat) : List Nat :=
  let r := readAt content pos len
  r ++ List.replicate (len - r.length) 0

/-- Response body of the songs route. -/
inductive Body where
  | empty
  | text (s : String)
  | bytes (bs : List Nat)
deriving Repr, DecidableEq

/-- Observable outcome of one `GET /songs/:id` invocation; `openedFile`
records whether the handler opened (and hence could seek or read) the
file. -/
structure SongResult where
  status : Nat
  headers : List (String × String)
  body : Body
  openedFile : Bool
deriving Repr, DecidableEq

/-- The three headers set at exec.ts:218-223, before any file I/O. -/
def rangeHeaders (start endv : Option Int) (songSize : Int) : List (String × String) :=
  [("Content-Range",
    "bytes " ++ jsNumToString start ++ "-" ++ jsNumToString endv ++ "/" ++ toString songSize),
   ("Accept-Ranges", "bytes"),
   ("Content-Length", jsNumToString (jadd (jsub endv start) (Option.some 1)))]

/-- The ranged branch of the handler (exec.ts:208-245). The seek offset is
coerced to i64 (NaN to 0); seeking to a negative absolute position makes
`Deno.seek` throw, and a negative `end - start + 1` makes
`new Uint8Array` throw a RangeError — either exception reaches the
app-level error listener (exec.ts:304-323), which answers 500 "Internal
Server Error" (the headers already set remain on the response). A NaN
length allocates an empty buffer (ToIndex(NaN) = 0). Otherwise the
handler fills the fresh buffer with one read and answers 206. -/
def rangedResponse (content : List Nat) (r : String) : SongResult :=
  let songSize : Int := content.length
  let pr := parseRangeModel r songSize
  let headers := rangeHeaders pr.1 pr.2 songSize
  let pos := seekPos songSize (seekChoiceJS pr.1 pr.2 songSize) (seekOffset pr.1)
  if pos < 0 then
    { status := 500, headers := headers
      body := Body.text "Internal Server Error", openedFile := true }
  else
    match toIndex (jadd (jsub pr.2 pr.1) (Option.some 1)) with
    | Option.none =>
      { status := 500, headers := headers
        body := Body.text "Internal Server Error", openedFile := true }
    | Option.some len =>
      { status := 206, headers := headers
        body := Body.bytes (rangedBody content pos len)
        openedFile := true }

/-- The `GET /songs/:id` handler (exec.ts:196-250): 404 without touching
the file when the path does not exist; full 200 body without a range
header; the ranged branch otherwise. -/
def songsHandler (file : Option (List Nat)) (range : Option String) : SongResult :=
  match file with
  | Option.none =>
    { status := 404, headers := [], body := Body.text "Song not found"
      openedFile := false }
  | Option.some content =>
    match range with
    | Option.none =>
      { status := 200
        headers := [("Content-Length", toString (content.length)),
                    ("Content-Type", "audio/mpeg")]
        body := Body.bytes content, openedFile := true }
    | Option.some r => rangedResponse content r

/-- C3: the claim says every valid ranged read seeks to absolute offset
start and returns exactly the file's bytes start..end. Failing input: a
10-byte file [1,...,10] with header "bytes=2-" (start 2, end defaulting to
9 = songSize - 1). The handler picks `Deno.SeekMode.End` with offset 2,
landing at absolute position 12 — past end of file — so the single read
fills nothing and the 206 body is 8 zero bytes instead of file bytes
2..9. -/
theorem C3_suffix_range_reads_zeros :
    (songsHandler (Option.some [1, 2, 3, 4, 5, 6, 7, 8, 9, 10])
      (Option.some "bytes=2-")).status = 206 ∧
    (songsHandler (Option.some [1, 2, 3, 4, 5, 6, 7, 8, 9, 10])
      (Option.some "bytes=2-")).body = Body.bytes (List.replicate 8 0) ∧
    Body.bytes (List.replicate 8 0)
      ≠ Body.bytes (List.take 8 (List.drop 2 [1, 2, 3, 4, 5, 6, 7, 8, 9, 10])) ∧
    seekChoice 2 9 10 = SeekWhence.fromEnd ∧
    seekPos 10 SeekWhence.fromEnd 2 = 12 := by
  refine ⟨by decide, by decide, by decide, by decide, by decide⟩

/-- C4: the claim says malformed or out-of-bounds Range values raise a
RangeError answered with a 416-equivalent status. Failing inputs on a
10-byte file: "bytes=20-" (start 20 > totalSize 10) parses to start 20,
end 9, proceeds into the arithmetic unchecked, and the negative buffer
length aborts into the generic 500 "Internal Server Error" handler; the
non-numeric "bytes=abc-" parses start to NaN, the seek offset coerces to
0 and `Uint8Array(NaN)` allocates an empty buffer, so the handler answers
206 with an empty body. No 416 is ever produced. -/
theorem C4_no_range_validation :
    parseRangeModel "bytes=20-" 10 = (Option.some 20, Option.some 9) ∧
    (songsHandler (Option.some [1, 2, 3, 4, 5, 6, 7, 8, 9, 10])
      (Option.some "bytes=20-")).status = 500 ∧
    (songsHandler (Option.some [1, 2, 3, 4, 5, 6, 7, 8, 9, 10])
      (Option.some "bytes=20-")).status ≠ 416 ∧
    (songsHandler (Option.some [1, 2, 3, 4, 5, 6, 7, 8, 9, 10])
      (Option.some "bytes=20-")).body = Body.text "Internal Server Error" ∧
    jsParseInt "abc" = Option.none ∧
    (songsHandler (Option.some [1, 2, 3, 4, 5, 6, 7, 8, 9, 10])
      (Option.some "bytes=abc-")).status = 206 ∧
    (songsHandler (Option.some [1, 2, 3, 4, 5, 6, 7, 8, 9, 10])
      (Option.some "bytes=abc-")).status ≠ 416 ∧
    (songsHandler (Option.some [1, 2, 3, 4, 5, 6, 7, 8, 9, 10])
      (Option.some "bytes=abc-")).body = Body.bytes [] := by
  refine ⟨by decide, by decide, by decide, by decide, by decide, by decide,
    by decide, by decide⟩

/-- C7: when the requested interval length end - start + 1 exceeds the
1 MiB maxChunk, end is clamped to start + maxChunk - 1, making the slice
length exactly maxChunk; parseRange "bytes=0-" at totalSize 5000000 yields
end 1048575; and an absent end component defaults to totalSize - 1. -/
theorem C7_chunk_clamping :
    (∀ s e : Int, e - s + 1 > maxChunk →
      clampEnd (Option.some s) (Option.some e) = Option.some (s + maxChunk - 1) ∧
      (s + maxChunk - 1) - s + 1 = maxChunk) ∧
    parseRangeModel "bytes=0-" 5000000 = (Option.some 0, Option.some 1048575) ∧
    (∀ songSize : Int, defaultEnd "" songSize = Option.some (songSize - 1)) := by
  refine ⟨?_, by decide, ?_⟩
  · intro s e h
    have hc : jgt (jadd (jsub (Option.some e) (Option.some s)) (Option.some 1))
        (Option.some maxChunk) = true := by
      simp only [jgt, jadd, jsub, gt_iff_lt, decide_eq_true_eq]
      omega
    refine ⟨?_, by omega⟩
    have harith : s + (maxChunk - 1) = s + maxChunk - 1 := by omega
    unfold clampEnd
    rw [if_pos hc]
    simp only [jadd]
    rw [harith]
  · intro songSize
    simp [defaultEnd]

theorem C7_chunk_clamping_witness :
    ((4999999 : Int) - 0 + 1 > maxChunk) ∧
    (clampEnd (Option.some 0) (Option.some 4999999)
      = Option.some (0 + maxChunk - 1) ∧
     ((0 : Int) + maxChunk - 1) - 0 + 1 = maxChunk) :=
  ⟨by decide, C7_chunk_clamping.1 0 4999999 (by decide)⟩

/-- C8: when the file does not exist on storage, the handler answers 404
with the plain-text body "Song not found" whatever the Range header says,
and never opens (hence never seeks or reads) any file. -/
theorem C8_missing_file_404 (range : Option String) :
    (songsHandler Option.none range).status = 404 ∧
    (songsHandler Option.none range).body = Body.text "Song not found" ∧
    (songsHandler Option.none range).openedFile = false :=
  ⟨rfl, rfl, rfl⟩

/-- C10: the 206 body is always exactly the allocated end - start + 1
bytes, because the buffer is allocated up front and returned
unconditionally: its length equals the allocation size whatever the read
delivers; a read positioned at or past end of file fills nothing, leaving
the body all zero bytes with no error signaled; and every 206 answer of
the handler carries such a buffer. -/
theorem C10_allocated_buffer_returned :
    (∀ (content : List Nat) (pos : Int) (len : Nat),
      (rangedBody content pos len).length = len) ∧
    (∀ (content : List Nat) (pos : Int) (len : Nat),
      (content.length : Int) ≤ pos → rangedBody content pos len = List.replicate len 0) ∧
    (∀ (content : List Nat) (r : String),
      (songsHandler (Option.some content) (Option.some r)).status = 206 →
      ∃ pos len, (songsHandler (Option.some content) (Option.some r)).body
        = Body.bytes (rangedBody content pos len)) := by
  refine ⟨?_, ?_, ?_⟩
  · intro content pos len
    have hle : (readAt content pos len).length ≤ len := by
      unfold readAt
      split
      · simp
      · simp [List.length_take]
    simp only [rangedBody, List.length_append, List.length_replicate]
    omega
  · intro content pos len h
    have h0 : ¬ pos < 0 := by omega
    have hlen : content.length ≤ pos.toNat := by omega
    have hdrop : List.drop pos.toNat content = [] := List.drop_eq_nil_of_le hlen
    simp [rangedBody, readAt, h0, hdrop]
  · intro content r h
    simp only [songsHandler, rangedResponse] at h ⊢
    by_cases hpos :
        seekPos (content.length : Int)
          (seekChoiceJS (parseRangeModel r (content.length : Int)).1
            (parseRangeModel r (content.length : Int)).2 (content.length : Int))
          (seekOffset (parseRangeModel r (content.length : Int)).1) < 0
    · simp only [if_pos hpos] at h
      exact absurd h (by decide)
    · simp only [if_neg hpos] at h ⊢
      cases hti : toIndex (jadd (jsub (parseRangeModel r (content.length : Int)).2
          (parseRangeModel r (content.length : Int)).1) (Option.some 1)) with
      | none =>
        rw [hti] at h
        have h5 : (500 : Nat) = 206 := h
        exact absurd h5 (by decide)
      | some len => exact ⟨_, _, rfl⟩

theorem C10_allocated_buffer_returned_witness :
    ((([1, 2] : List Nat).length : Int) ≤ 7 ∧
      rangedBody [1, 2] 7 4 = List.replicate 4 0) ∧
    ((songsHandler (Option.some [1, 2, 3]) (Option.some "bytes=0-1")).status = 206 ∧
      ∃ pos len, (songsHandler (Option.some [1, 2, 3]) (Option.some "bytes=0-1")).body
        = Body.bytes (rangedBody [1, 2, 3] pos len)) :=
  ⟨⟨by decide, C10_allocated_buffer_returned.2.1 [1, 2] 7 4 (by decide)⟩,
   ⟨by decide, C10_allocated_buffer_returned.2.2 [1, 2, 3] "bytes=0-1" (by decide)⟩⟩

end AudioVibe
